import Mathlib

-- Shallow embedding of the style-transfer pipeline:
--   src/genai_1_24.py : the `inference` entry point (validation, prompt
--     building, engine dispatch, reply extraction)
--   src/main.py       : `count_words` and the length-constrained
--     refinement loop in `main`
-- Python runtime values that may arrive as `style` or `input` arguments
-- (strings, lists of values, anything else) are modelled by `PyObj`;
-- Python exceptions are modelled by `Except` with an error taxonomy that
-- distinguishes the TypeError sites from the ValueError sites of the source.

set_option autoImplicit false
set_option maxRecDepth 10000
set_option maxHeartbeats 1000000

/-- A Python runtime value as far as `inference`'s isinstance checks see it:
a `str`, a `list` of values, or anything else. -/
inductive PyObj where
  | str : String → PyObj
  | list : List PyObj → PyObj
  | other : PyObj

/-- An ASCII whitespace character as Python's `str.strip()` sees it:
space, tab, newline, carriage return, form feed, vertical tab. -/
def pyIsSpace (c : Char) : Bool :=
  c.toNat = 32 || c.toNat = 9 || c.toNat = 10 || c.toNat = 13 || c.toNat = 12 || c.toNat = 11

/-- Python's `str.strip()`: drop leading and trailing whitespace. Defined
structurally on the character list so that it evaluates in the kernel. -/
def pyStrip (s : String) : String :=
  String.mk (((s.data.dropWhile pyIsSpace).reverse.dropWhile pyIsSpace).reverse)

/-- One chat message dict: keys `role` and `content` (src/genai_1_24.py lines 71-74, 89-94). -/
structure Msg where
  role : String
  content : String
  deriving DecidableEq, Repr

/-- One candidate of an engine reply: the dict with key `generated_text`
holding the full conversation including the generated final turn
(src/genai_1_24.py lines 75 and 102 index it as `[0].generated_text[-1].content`). -/
structure Candidate where
  generated_text : List Msg
  deriving DecidableEq, Repr

/-- The engine handle (`pipe` argument). `isTextGenerationPipeline` models the
`isinstance(pipe, TextGenerationPipeline)` capability check; `run` models
calling the pipeline on one conversation with a `max_new_tokens` value,
returning the list of candidates for that conversation. A batch call
`pipe(list_of_conversations, ...)` returns one candidate list per
conversation, i.e. `run` mapped over the batch. -/
structure PipeHandle where
  isTextGenerationPipeline : Bool
  run : List Msg → Option Nat → List Candidate

/-- Error taxonomy of `inference` (src/genai_1_24.py). The three TypeError
raise sites (lines 58-61, 104-105) and the three ValueError raise sites
(lines 67-70, 86-87, 99-100) are distinguished; `engineFormat` models the
IndexError/KeyError a malformed engine reply would raise during extraction. -/
inductive InfError where
  | typeErrorStyle
  | typeErrorPipe
  | typeErrorInput
  | emptyInput
  | lengthExceeded
  | emptyBatch
  | engineFormat
  deriving DecidableEq, Repr

/-- Which errors are ValueError-class in the source (the validation errors),
as opposed to the TypeError-class argument-shape errors. -/
def isValueError : InfError → Bool
  | InfError.emptyInput => true
  | InfError.lengthExceeded => true
  | InfError.emptyBatch => true
  | _ => false

/-- Which errors are TypeError-class in the source (lines 58-61, 104-105). -/
def isTypeErrorClass : InfError → Bool
  | InfError.typeErrorStyle => true
  | InfError.typeErrorPipe => true
  | InfError.typeErrorInput => true
  | _ => false

/-- Result of `inference`: a single string or a list of strings. -/
inductive InfResult where
  | single : String → InfResult
  | batch : List String → InfResult
  deriving DecidableEq, Repr

/-- `len_limit is not None and len(text) > len_limit` (src/genai_1_24.py lines 69, 86). -/
def lenExceeds (len_limit : Option Nat) (t : String) : Bool :=
  match len_limit with
  | some l => decide (l < t.length)
  | none => false

/-- The fixed system instruction (src/genai_1_24.py lines 72, 91). -/
def systemInstruction : String :=
  "Твоя задача — перефразировать в указанном стиле текст, который присылает пользователь. Не добавляй ничего от себя, даже кавычки."

/-- The fixed user-turn template `Текст: "<text>"\nСтиль: <style>`
(src/genai_1_24.py lines 73, 92); the text is embedded literally, unescaped. -/
def userContent (text styleStr : String) : String :=
  "Текст: \"" ++ text ++ "\"\nСтиль: " ++ styleStr

/-- The conversation built for one piece of source text: one system turn
followed by one user turn (src/genai_1_24.py lines 71-74 and 89-94). -/
def buildConversation (styleStr text : String) : List Msg :=
  [Msg.mk "system" systemInstruction, Msg.mk "user" (userContent text styleStr)]

/-- Reply extraction `cands[0].generated_text[-1].content`; `none` models the
IndexError a malformed reply would raise. -/
def extractReply (cands : List Candidate) : Option String :=
  match cands with
  | [] => none
  | c :: _ =>
    match c.generated_text.getLast? with
    | some m => some m.content
    | none => none

/-- Extraction of every reply of a batch, as the list comprehension on
src/genai_1_24.py line 102: fails if any reply is malformed. -/
def extractAll : List (List Candidate) → Option (List String)
  | [] => some []
  | a :: rest =>
    match extractReply a, extractAll rest with
    | some s, some tl => some (s :: tl)
    | _, _ => none

/-- The batch validation-and-prompt-building loop (src/genai_1_24.py lines
78-98): non-`str` entries are skipped, entries empty after strip are skipped,
an entry whose stripped length exceeds the limit aborts the whole batch, and
each surviving entry contributes one conversation, in order. -/
def buildBatch (styleStr : String) (len_limit : Option Nat) : List PyObj → Except InfError (List (List Msg))
  | [] => Except.ok []
  | PyObj.str s :: rest =>
    let t := (pyStrip s)
    if t = "" then buildBatch styleStr len_limit rest
    else if lenExceeds len_limit t then Except.error InfError.lengthExceeded
    else
      match buildBatch styleStr len_limit rest with
      | Except.ok tl => Except.ok (buildConversation styleStr t :: tl)
      | Except.error e => Except.error e
  | _ :: rest => buildBatch styleStr len_limit rest

/-- An entry the batch loop silently skips: a non-string, or a string that is
empty after stripping. -/
def skippable : PyObj → Bool
  | PyObj.str s => (pyStrip s) == ""
  | _ => true

/-- Packaging of a single-mode engine reply:
`pipe(message, ...)[0].generated_text[-1].content` (src/genai_1_24.py line 75). -/
def singleAnswer (cands : List Candidate) : Except InfError InfResult :=
  match extractReply cands with
  | some a => Except.ok (InfResult.single a)
  | none => Except.error InfError.engineFormat

/-- `inference(style, input, pipe, token_limit, len_limit)` from
src/genai_1_24.py lines 36-107: type checks on `style` and `pipe` first, then
single-string mode (strip, empty check, length check, one conversation, one
engine call) or batch mode (the `buildBatch` loop, empty-batch check, one
batched engine call, extraction of each reply). -/
def inference (style input : PyObj) (pipe : PipeHandle)
    (token_limit len_limit : Option Nat) : Except InfError InfResult :=
  match style with
  | PyObj.str styleStr =>
    if pipe.isTextGenerationPipeline then
      match input with
      | PyObj.str s =>
        let t := (pyStrip s)
        if t = "" then Except.error InfError.emptyInput
        else if lenExceeds len_limit t then Except.error InfError.lengthExceeded
        else singleAnswer (pipe.run (buildConversation styleStr t) token_limit)
      | PyObj.list entries =>
        match buildBatch styleStr len_limit entries with
        | Except.error e => Except.error e
        | Except.ok convs =>
          if convs.isEmpty then Except.error InfError.emptyBatch
          else
            match extractAll (convs.map (fun c => pipe.run c token_limit)) with
            | some answers => Except.ok (InfResult.batch answers)
            | none => Except.error InfError.engineFormat
      | PyObj.other => Except.error InfError.typeErrorInput
    else Except.error InfError.typeErrorPipe
  | _ => Except.error InfError.typeErrorStyle

/-- The valid lines of a batch as the specification describes them: the
entries that are string-typed, non-empty after trimming, and within the
length limit, each contributing its trimmed text, in order. Stated from the
spec's words to compare against `buildBatch`. -/
def validTexts (len_limit : Option Nat) : List PyObj → List String
  | [] => []
  | PyObj.str s :: rest =>
    if (pyStrip s) ≠ "" ∧ lenExceeds len_limit (pyStrip s) = false
    then (pyStrip s) :: validTexts len_limit rest
    else validTexts len_limit rest
  | _ :: rest => validTexts len_limit rest

-- ## src/main.py : word counting and the refinement loop

def MIN_WORDS : Nat := 100

def MAX_WORDS : Nat := 150

/-- Character class of the regex `[A-Za-zА-Яа-яЁё0-9']+` (src/main.py line 13):
Latin letters (65-90, 97-122), Cyrillic А-Я (1040-1071) and а-я (1072-1103),
Ё (1025) and ё (1105), digits (48-57), and the apostrophe (39). -/
def isWordChar (c : Char) : Bool :=
  decide ((65 ≤ c.toNat ∧ c.toNat ≤ 90) ∨ (97 ≤ c.toNat ∧ c.toNat ≤ 122) ∨
    (1040 ≤ c.toNat ∧ c.toNat ≤ 1071) ∨ (1072 ≤ c.toNat ∧ c.toNat ≤ 1103) ∨
    c.toNat = 1025 ∨ c.toNat = 1105 ∨ (48 ≤ c.toNat ∧ c.toNat ≤ 57) ∨ c.toNat = 39)

/-- Scanner computing `re.findall(r"[A-Za-zА-Яа-яЁё0-9']+", text)`: collects
the maximal runs of word characters, in order; `acc` holds the reversed
current run. -/
def wordRunsAux : List Char → List Char → List (List Char)
  | [], acc => if acc.isEmpty then [] else [acc.reverse]
  | c :: rest, acc =>
    if isWordChar c then wordRunsAux rest (c :: acc)
    else if acc.isEmpty then wordRunsAux rest []
    else acc.reverse :: wordRunsAux rest []

/-- `re.findall(r"[A-Za-zА-Яа-яЁё0-9']+", text)` (src/main.py line 13). -/
def findall (text : String) : List (List Char) :=
  wordRunsAux text.data []

/-- `count_words` from src/main.py lines 12-13: the number of maximal runs of
word characters. -/
def count_words (text : String) : Nat :=
  (findall text).length

/-- The acceptance predicate `MIN_WORDS <= w <= MAX_WORDS` (src/main.py line 76). -/
def inBounds (w : Nat) : Bool :=
  decide (MIN_WORDS ≤ w ∧ w ≤ MAX_WORDS)

/-- The retry budget `tries = 6` (src/main.py line 73). -/
def tries : Nat := 6

/-- Corrective suffix appended when the body is too short (src/main.py line 80). -/
def expandInstr : String := "\n\nСделай письмо чуть подробнее."

/-- Corrective suffix appended when the body is too long (src/main.py line 82). -/
def shortenInstr : String := "\n\nСократи письмо до 100–150 слов."

/-- One correction call of the loop body (src/main.py lines 79-82): append the
expand instruction if the word count is below `MIN_WORDS`, else the shorten
instruction, and resubmit through the style-transfer engine `transfer`
(which stands for `tg.run_style_transfer(pipe, ·, style=style_for_tg)`). -/
def refineStep (transfer : String → String) (body : String) : String :=
  if count_words body < MIN_WORDS then transfer (body ++ expandInstr)
  else transfer (body ++ shortenInstr)

/-- The refinement loop `for _ in range(tries)` (src/main.py lines 73-82), with
`n` iterations remaining: check acceptance first, stop on acceptance, else
make one correction call and continue. Returns the final body together with
the number of correction calls made. -/
def refineLoop (transfer : String → String) : Nat → String → String × Nat
  | 0, body => (body, 0)
  | n + 1, body =>
    if inBounds (count_words body) then (body, 0)
    else
      let r := refineLoop transfer n (refineStep transfer body)
      (r.1, r.2 + 1)

/-- The loop as run by `main`: budget `tries = 6`. -/
def runRefinement (transfer : String → String) (body : String) : String × Nat :=
  refineLoop transfer tries body

/-- `isinstance(style, str)` (src/genai_1_24.py line 58). -/
def isStrObj : PyObj → Bool
  | PyObj.str _ => true
  | _ => false

/-- The apostrophe character, U+0027. -/
def apostrophe : Char := Char.ofNat 39

/-- The first word-count test sentence of the spec. -/
def sampleSentence : String :=
  "Hello, world! 123 don" ++ String.singleton apostrophe ++ "t"

/-- A body of 120 words, inside the [100, 150] acceptance interval. -/
def sampleBody : String :=
  String.intercalate " " (List.replicate 120 "a")

-- ## Lemmas

lemma refineStep_out (transfer : String → String)
    (h : ∀ s, inBounds (count_words (transfer s)) = false) (b : String) :
    inBounds (count_words (refineStep transfer b)) = false := by
  unfold refineStep
  split
  · exact h _
  · exact h _

lemma refineLoop_stuck (transfer : String → String)
    (h : ∀ s, inBounds (count_words (transfer s)) = false) :
    ∀ (n : Nat) (body : String), inBounds (count_words body) = false →
      refineLoop transfer n body = ((refineStep transfer)^[n] body, n) := by
  intro n
  induction n with
  | zero => intro body _; simp [refineLoop]
  | succ n ih =>
    intro body hb
    rw [Function.iterate_succ_apply]
    simp only [refineLoop, hb, Bool.false_eq_true, if_false]
    rw [ih (refineStep transfer body) (refineStep_out transfer h body)]

lemma buildBatch_skip (styleStr : String) (ll : Option Nat) (v : PyObj) (rest : List PyObj)
    (hv : skippable v = true) :
    buildBatch styleStr ll (v :: rest) = buildBatch styleStr ll rest := by
  cases v with
  | str s =>
    have ht : (pyStrip s) = "" := by simpa [skippable] using hv
    simp [buildBatch, ht]
  | list l => simp [buildBatch]
  | other => simp [buildBatch]

lemma buildBatch_abort (styleStr : String) (l : Nat) :
    ∀ entries : List PyObj,
      (∃ s, PyObj.str s ∈ entries ∧ l < (pyStrip s).length) →
      buildBatch styleStr (some l) entries = Except.error InfError.lengthExceeded := by
  intro entries
  induction entries with
  | nil =>
    rintro ⟨s, hs, -⟩
    cases hs
  | cons v rest ih =>
    rintro ⟨s, hs, hlen⟩
    rcases List.mem_cons.mp hs with hv | hmem
    · cases hv
      have ht : ¬ (pyStrip s) = "" := by
        intro h0
        rw [h0] at hlen
        simp at hlen
      have hex : lenExceeds (some l) (pyStrip s) = true := by
        simp [lenExceeds, hlen]
      simp [buildBatch, ht, hex]
    · have hrest := ih ⟨s, hmem, hlen⟩
      cases v with
      | str u =>
        by_cases ht : (pyStrip u) = ""
        · simp [buildBatch, ht, hrest]
        · by_cases hex : lenExceeds (some l) (pyStrip u) = true
          · simp [buildBatch, ht, hex]
          · simp [buildBatch, ht, hex, hrest]
      | list ls => simp [buildBatch, hrest]
      | other => simp [buildBatch, hrest]

lemma buildBatch_eq_validTexts (styleStr : String) (ll : Option Nat) :
    ∀ entries : List PyObj,
      (∀ s, PyObj.str s ∈ entries → lenExceeds ll (pyStrip s) = false) →
      buildBatch styleStr ll entries
        = Except.ok ((validTexts ll entries).map (buildConversation styleStr)) := by
  intro entries
  induction entries with
  | nil => intro _; simp [buildBatch, validTexts]
  | cons v rest ih =>
    intro hgood
    have hrest : ∀ s, PyObj.str s ∈ rest → lenExceeds ll (pyStrip s) = false :=
      fun s hs => hgood s (List.mem_cons_of_mem _ hs)
    cases v with
    | str s =>
      have hs : lenExceeds ll (pyStrip s) = false := hgood s (List.mem_cons_self _ _)
      by_cases ht : (pyStrip s) = ""
      · simp [buildBatch, validTexts, ht, ih hrest]
      · simp [buildBatch, validTexts, ht, hs, ih hrest]
    | list ls => simp [buildBatch, validTexts, ih hrest]
    | other => simp [buildBatch, validTexts, ih hrest]

lemma buildBatch_all_skippable (styleStr : String) (ll : Option Nat) :
    ∀ entries : List PyObj, (∀ v ∈ entries, skippable v = true) →
      buildBatch styleStr ll entries = Except.ok [] := by
  intro entries
  induction entries with
  | nil => intro _; simp [buildBatch]
  | cons v rest ih =>
    intro h
    rw [buildBatch_skip styleStr ll v rest (h v (List.mem_cons_self _ _))]
    exact ih (fun u hu => h u (List.mem_cons_of_mem _ hu))

lemma extractAll_of_isSome (run : List Msg → Option Nat → List Candidate) (tok : Option Nat) :
    ∀ convs : List (List Msg),
      (∀ c ∈ convs, (extractReply (run c tok)).isSome = true) →
      extractAll (convs.map (fun c => run c tok))
        = some (convs.map (fun c => (extractReply (run c tok)).getD "")) := by
  intro convs
  induction convs with
  | nil => intro _; simp [extractAll]
  | cons c rest ih =>
    intro h
    obtain ⟨a, ha⟩ := Option.isSome_iff_exists.mp (h c (List.mem_cons_self _ _))
    have hrest := ih (fun d hd => h d (List.mem_cons_of_mem _ hd))
    simp [extractAll, ha, hrest]

-- ## Claim theorems

/-- C3: `count_words` counts maximal runs of Latin letters, Cyrillic letters
(including ё/Ё), digits and the apostrophe, each run being one word: on
"Hello, world! 123 don`t" (with a real apostrophe) it returns 4 and the runs
are exactly the four tokens, on "" it returns 0, and on "Привет мир" it
returns 2. -/
theorem count_words_examples :
    count_words sampleSentence = 4
    ∧ (findall sampleSentence).map (fun l => String.mk l)
        = ["Hello", "world", "123", "don" ++ String.singleton apostrophe ++ "t"]
    ∧ count_words "" = 0
    ∧ count_words "Привет мир" = 2 := by
  refine ⟨by decide, by decide, by decide, by decide⟩

/-- C2: with a style-transfer engine whose replies never land inside
[MIN_WORDS, MAX_WORDS], the refinement loop started on an engine-produced
draft terminates after exactly the budget of `tries = 6` correction calls and
returns the last generated body, which still violates the bounds; no error is
raised (the loop is a total function). -/
theorem refinement_budget_exhaustion (transfer : String → String)
    (h : ∀ s, inBounds (count_words (transfer s)) = false) (draft : String) :
    runRefinement transfer (transfer draft)
      = ((refineStep transfer)^[tries] (transfer draft), tries)
    ∧ inBounds (count_words ((refineStep transfer)^[tries] (transfer draft))) = false := by
  have hmain : runRefinement transfer (transfer draft)
      = ((refineStep transfer)^[tries] (transfer draft), tries) :=
    refineLoop_stuck transfer h tries (transfer draft) (h draft)
  have hiter : (refineStep transfer)^[tries] (transfer draft)
      = refineStep transfer ((refineStep transfer)^[5] (transfer draft)) :=
    Function.iterate_succ_apply' (refineStep transfer) 5 (transfer draft)
  refine ⟨hmain, ?_⟩
  rw [hiter]
  exact refineStep_out transfer h ((refineStep transfer)^[5] (transfer draft))

/-- Closed instance of C2: the engine that always replies with the empty
string never satisfies the bounds, so the loop makes all 6 correction calls
and hands back the out-of-bounds final body. -/
theorem refinement_budget_exhaustion_witness :
    runRefinement (fun _ => "") ((fun _ => "") "x")
      = ((refineStep (fun _ => ""))^[tries] ((fun _ => "") "x"), tries)
    ∧ inBounds (count_words ((refineStep (fun _ => ""))^[tries] ((fun _ => "") "x"))) = false :=
  refinement_budget_exhaustion (fun _ => "") (fun _ => rfl) "x"

/-- C4: the refinement loop exits on first acceptance: whenever the current
body's word count lies in [MIN_WORDS, MAX_WORDS] and at least one iteration
remains, the loop stops at once with zero further correction calls and
returns that very body; in particular a loop started on an in-bounds body
makes zero correction calls. -/
theorem refinement_first_acceptance (transfer : String → String) (body : String) (n : Nat)
    (h : inBounds (count_words body) = true) :
    refineLoop transfer (n + 1) body = (body, 0)
    ∧ runRefinement transfer body = (body, 0) := by
  constructor
  · simp [refineLoop, h]
  · show refineLoop transfer (5 + 1) body = (body, 0)
    simp [refineLoop, h]

/-- Closed instance of C4: a 120-word body is accepted immediately, with zero
correction calls, whatever the engine does. -/
theorem refinement_first_acceptance_witness :
    refineLoop (fun s => s) (0 + 1) sampleBody = (sampleBody, 0)
    ∧ runRefinement (fun s => s) sampleBody = (sampleBody, 0) :=
  refinement_first_acceptance (fun s => s) sampleBody 0 (by decide)

/-- C1: in batch mode with a finite limit, skippable entries (non-strings and
strings empty after trimming) never raise, but as soon as any string entry has
trimmed length above the limit, the whole batch fails with the
LengthExceededError ValueError, however many valid lines it also contains. -/
theorem batch_oversized_line_aborts (styleStr : String) (entries : List PyObj)
    (pipe : PipeHandle) (tok : Option Nat) (l : Nat)
    (hpipe : pipe.isTextGenerationPipeline = true)
    (hbad : ∃ s, PyObj.str s ∈ entries ∧ l < (pyStrip s).length) :
    (∀ (v : PyObj) (rest : List PyObj), skippable v = true →
      buildBatch styleStr (some l) (v :: rest) = buildBatch styleStr (some l) rest)
    ∧ inference (PyObj.str styleStr) (PyObj.list entries) pipe tok (some l)
        = Except.error InfError.lengthExceeded
    ∧ isValueError InfError.lengthExceeded = true := by
  refine ⟨fun v rest hv => buildBatch_skip styleStr (some l) v rest hv, ?_, rfl⟩
  have habort := buildBatch_abort styleStr l entries hbad
  simp [inference, hpipe, habort]

/-- Closed instance of C1: a batch with one valid line and one oversized line
fails as a whole with LengthExceededError. -/
theorem batch_oversized_line_aborts_witness :
    (∀ (v : PyObj) (rest : List PyObj), skippable v = true →
      buildBatch "x" (some 2) (v :: rest) = buildBatch "x" (some 2) rest)
    ∧ inference (PyObj.str "x") (PyObj.list [PyObj.str "ok", PyObj.str "aaaa"])
        (PipeHandle.mk true (fun _ _ => [])) none (some 2)
        = Except.error InfError.lengthExceeded
    ∧ isValueError InfError.lengthExceeded = true :=
  batch_oversized_line_aborts "x" [PyObj.str "ok", PyObj.str "aaaa"]
    (PipeHandle.mk true (fun _ _ => [])) none 2 rfl
    ⟨"aaaa", List.mem_cons_of_mem _ (List.mem_cons_self _ _), by decide⟩

/-- C5: in batch mode with no oversized line and at least one valid line,
given an engine returning one extractable structured reply per submitted
conversation, `inference` returns exactly one extracted string per valid
(string-typed, non-empty after trim, within-limit) line, positionally aligned
with the surviving lines in their original relative order, with no
placeholders for skipped lines. -/
theorem batch_alignment (styleStr : String) (entries : List PyObj) (pipe : PipeHandle)
    (tok ll : Option Nat)
    (hpipe : pipe.isTextGenerationPipeline = true)
    (hwithin : ∀ s, PyObj.str s ∈ entries → lenExceeds ll (pyStrip s) = false)
    (hvalid : validTexts ll entries ≠ [])
    (hengine : ∀ conv, (extractReply (pipe.run conv tok)).isSome = true) :
    inference (PyObj.str styleStr) (PyObj.list entries) pipe tok ll
      = Except.ok (InfResult.batch ((validTexts ll entries).map
          (fun t => (extractReply (pipe.run (buildConversation styleStr t) tok)).getD "")))
    ∧ ((validTexts ll entries).map
        (fun t => (extractReply (pipe.run (buildConversation styleStr t) tok)).getD "")).length
      = (validTexts ll entries).length := by
  have hok := buildBatch_eq_validTexts styleStr ll entries hwithin
  have hne : ((validTexts ll entries).map (buildConversation styleStr)).isEmpty = false := by
    cases hvt : validTexts ll entries with
    | nil => exact absurd hvt hvalid
    | cons a as => simp
  have hext := extractAll_of_isSome pipe.run tok
    ((validTexts ll entries).map (buildConversation styleStr))
    (fun c _ => hengine c)
  refine ⟨?_, by simp⟩
  simp only [inference, hpipe, if_true, hok, hne, Bool.false_eq_true, if_false, hext]
  simp [List.map_map, Function.comp]

/-- Closed instance of C5: one valid line among skipped ones yields exactly
one reply, the extraction of the engine reply for that line. -/
theorem batch_alignment_witness :
    inference (PyObj.str "x") (PyObj.list [PyObj.other, PyObj.str " hi ", PyObj.str "  "])
        (PipeHandle.mk true (fun _ _ => [Candidate.mk [Msg.mk "assistant" "ok"]])) none none
      = Except.ok (InfResult.batch
          ((validTexts none [PyObj.other, PyObj.str " hi ", PyObj.str "  "]).map
            (fun t => (extractReply ((fun (_ : List Msg) (_ : Option Nat) =>
                [Candidate.mk [Msg.mk "assistant" "ok"]]) (buildConversation "x" t) none)).getD "")))
    ∧ ((validTexts none [PyObj.other, PyObj.str " hi ", PyObj.str "  "]).map
        (fun t => (extractReply ((fun (_ : List Msg) (_ : Option Nat) =>
            [Candidate.mk [Msg.mk "assistant" "ok"]]) (buildConversation "x" t) none)).getD "")).length
      = (validTexts none [PyObj.other, PyObj.str " hi ", PyObj.str "  "]).length :=
  batch_alignment "x" [PyObj.other, PyObj.str " hi ", PyObj.str "  "]
    (PipeHandle.mk true (fun _ _ => [Candidate.mk [Msg.mk "assistant" "ok"]])) none none
    rfl (fun s _ => rfl) (by decide) (fun _ => rfl)

/-- C6: a batch whose entries are all skipped (non-strings and strings empty
after trimming) fails with the EmptyBatchError ValueError; the theorem holds
for every engine handle, so no engine call is involved. -/
theorem empty_batch_rejected (styleStr : String) (entries : List PyObj)
    (pipe : PipeHandle) (tok ll : Option Nat)
    (hpipe : pipe.isTextGenerationPipeline = true)
    (hall : ∀ v ∈ entries, skippable v = true) :
    inference (PyObj.str styleStr) (PyObj.list entries) pipe tok ll
      = Except.error InfError.emptyBatch
    ∧ isValueError InfError.emptyBatch = true := by
  refine ⟨?_, rfl⟩
  simp [inference, hpipe, buildBatch_all_skippable styleStr ll entries hall]

/-- Closed instance of C6: a batch of whitespace-only and non-string entries
raises EmptyBatchError. -/
theorem empty_batch_rejected_witness :
    inference (PyObj.str "x") (PyObj.list [PyObj.str "   ", PyObj.other, PyObj.str ""])
        (PipeHandle.mk true (fun _ _ => [Candidate.mk [Msg.mk "assistant" "ok"]])) none (some 5)
      = Except.error InfError.emptyBatch
    ∧ isValueError InfError.emptyBatch = true :=
  empty_batch_rejected "x" [PyObj.str "   ", PyObj.other, PyObj.str ""]
    (PipeHandle.mk true (fun _ _ => [Candidate.mk [Msg.mk "assistant" "ok"]])) none (some 5)
    rfl (by
      intro v hv
      rcases List.mem_cons.mp hv with h1 | hv
      · cases h1; decide
      rcases List.mem_cons.mp hv with h2 | hv
      · cases h2; decide
      rcases List.mem_cons.mp hv with h3 | hv
      · cases h3; decide
      · cases hv)

/-- C7: in single-string mode the input is stripped; a string that strips to
empty fails with the EmptyInputError ValueError, and one whose stripped length
exceeds a finite limit fails with the LengthExceededError ValueError — for
every engine handle, so before any engine call. -/
theorem single_mode_validation (styleStr s : String) (pipe : PipeHandle) (tok : Option Nat)
    (hpipe : pipe.isTextGenerationPipeline = true) :
    (pyStrip s = "" → ∀ ll : Option Nat,
      inference (PyObj.str styleStr) (PyObj.str s) pipe tok ll
        = Except.error InfError.emptyInput
      ∧ isValueError InfError.emptyInput = true)
    ∧ (∀ l : Nat, l < (pyStrip s).length →
      inference (PyObj.str styleStr) (PyObj.str s) pipe tok (some l)
        = Except.error InfError.lengthExceeded
      ∧ isValueError InfError.lengthExceeded = true) := by
  constructor
  · intro ht ll
    exact ⟨by simp [inference, hpipe, ht], rfl⟩
  · intro l hl
    have ht : ¬ pyStrip s = "" := by
      intro h0
      rw [h0] at hl
      simp at hl
    have hex : lenExceeds (some l) (pyStrip s) = true := by
      simp [lenExceeds, hl]
    exact ⟨by simp [inference, hpipe, ht, hex], rfl⟩

/-- Closed instance of C7: `"   "` is rejected with EmptyInputError, and a
4-character string is rejected with LengthExceededError under limit 3. -/
theorem single_mode_validation_witness :
    (inference (PyObj.str "x") (PyObj.str "   ")
        (PipeHandle.mk true (fun _ _ => [])) none none
      = Except.error InfError.emptyInput
      ∧ isValueError InfError.emptyInput = true)
    ∧ (inference (PyObj.str "x") (PyObj.str "abcd")
        (PipeHandle.mk true (fun _ _ => [])) none (some 3)
      = Except.error InfError.lengthExceeded
      ∧ isValueError InfError.lengthExceeded = true) :=
  ⟨(single_mode_validation "x" "   " (PipeHandle.mk true (fun _ _ => [])) none rfl).1
      (by decide) none,
   (single_mode_validation "x" "abcd" (PipeHandle.mk true (fun _ _ => [])) none rfl).2
      3 (by decide)⟩

/-- C9: whenever the style argument is not a string or the engine handle does
not satisfy the TextGenerationPipeline capability, `inference` fails with a
TypeError-class error, for every input whatsoever and every engine behaviour —
i.e. the type checks come before any input validation or engine call. -/
theorem type_checks_precede_validation (style input : PyObj) (pipe : PipeHandle)
    (tok ll : Option Nat)
    (h : isStrObj style = false ∨ pipe.isTextGenerationPipeline = false) :
    ∃ e, inference style input pipe tok ll = Except.error e ∧ isTypeErrorClass e = true := by
  cases style with
  | str s =>
    cases h with
    | inl h1 => simp [isStrObj] at h1
    | inr h2 => exact ⟨InfError.typeErrorPipe, by simp [inference, h2], rfl⟩
  | list l => exact ⟨InfError.typeErrorStyle, by simp [inference], rfl⟩
  | other => exact ⟨InfError.typeErrorStyle, by simp [inference], rfl⟩

/-- Closed instance of C9: a non-string style is rejected with a
TypeError-class error even though the accompanying input is itself invalid
(empty), showing the type check fires first. -/
theorem type_checks_precede_validation_witness :
    ∃ e, inference PyObj.other (PyObj.str "")
        (PipeHandle.mk true (fun _ _ => [])) none none
      = Except.error e ∧ isTypeErrorClass e = true :=
  type_checks_precede_validation PyObj.other (PyObj.str "")
    (PipeHandle.mk true (fun _ _ => [])) none none (Or.inl rfl)

lemma buildBatch_mem (styleStr : String) (ll : Option Nat) :
    ∀ (entries : List PyObj) (convs : List (List Msg)),
      buildBatch styleStr ll entries = Except.ok convs →
      ∀ c ∈ convs, ∃ s, PyObj.str s ∈ entries ∧ c = buildConversation styleStr (pyStrip s) := by
  intro entries
  induction entries with
  | nil =>
    intro convs h c hc
    simp [buildBatch] at h
    subst h
    cases hc
  | cons v rest ih =>
    intro convs h c hc
    cases v with
    | str s =>
      by_cases ht : pyStrip s = ""
      · rw [buildBatch_skip styleStr ll (PyObj.str s) rest (by simp [skippable, ht])] at h
        obtain ⟨u, hu, hcu⟩ := ih convs h c hc
        exact ⟨u, List.mem_cons_of_mem _ hu, hcu⟩
      · by_cases hex : lenExceeds ll (pyStrip s) = true
        · simp [buildBatch, ht, hex] at h
        · cases hrest : buildBatch styleStr ll rest with
          | error e =>
            rw [show buildBatch styleStr ll (PyObj.str s :: rest)
                = Except.error e by simp [buildBatch, ht, hex, hrest]] at h
            cases h
          | ok tl =>
            rw [show buildBatch styleStr ll (PyObj.str s :: rest)
                = Except.ok (buildConversation styleStr (pyStrip s) :: tl) by
              simp [buildBatch, ht, hex, hrest]] at h
            cases h
            rcases List.mem_cons.mp hc with hhead | htail
            · exact ⟨s, List.mem_cons_self _ _, hhead⟩
            · obtain ⟨u, hu, hcu⟩ := ih tl hrest c htail
              exact ⟨u, List.mem_cons_of_mem _ hu, hcu⟩
    | list ls =>
      rw [buildBatch_skip styleStr ll (PyObj.list ls) rest rfl] at h
      obtain ⟨u, hu, hcu⟩ := ih convs h c hc
      exact ⟨u, List.mem_cons_of_mem _ hu, hcu⟩
    | other =>
      rw [buildBatch_skip styleStr ll PyObj.other rest rfl] at h
      obtain ⟨u, hu, hcu⟩ := ih convs h c hc
      exact ⟨u, List.mem_cons_of_mem _ hu, hcu⟩

/-- C8: every conversation submitted to the engine is exactly one system turn
with the fixed rephrasing instruction followed by one user turn holding the
template `Текст: "<text>"` newline `Стиль: <style>` with the stripped source
text embedded literally and unescaped: the builder produces exactly that
two-turn list, single mode calls the engine on the built conversation of the
stripped input, and every conversation of a successful batch is the built
conversation of the stripped text of some string entry. -/
theorem conversation_shape (styleStr t : String) :
    buildConversation styleStr t
      = [Msg.mk "system" systemInstruction,
         Msg.mk "user" ("Текст: \"" ++ t ++ "\"\nСтиль: " ++ styleStr)]
    ∧ (∀ (s : String) (pipe : PipeHandle) (tok ll : Option Nat),
        pipe.isTextGenerationPipeline = true → pyStrip s ≠ "" →
        lenExceeds ll (pyStrip s) = false →
        inference (PyObj.str styleStr) (PyObj.str s) pipe tok ll
          = singleAnswer (pipe.run (buildConversation styleStr (pyStrip s)) tok))
    ∧ (∀ (ll : Option Nat) (entries : List PyObj) (convs : List (List Msg)),
        buildBatch styleStr ll entries = Except.ok convs →
        ∀ c ∈ convs, ∃ s, PyObj.str s ∈ entries
          ∧ c = buildConversation styleStr (pyStrip s)) := by
  refine ⟨rfl, ?_, fun ll entries convs h => buildBatch_mem styleStr ll entries convs h⟩
  intro s pipe tok ll hpipe ht hex
  simp [inference, hpipe, ht, hex]

/-- Closed instance of C8: single mode on a padded input submits exactly the
two-turn conversation over the stripped text and returns the extracted
engine reply. -/
theorem conversation_shape_witness :
    inference (PyObj.str "Официальный") (PyObj.str " hi ")
        (PipeHandle.mk true (fun _ _ => [Candidate.mk [Msg.mk "assistant" "ok"]])) none none
      = singleAnswer ((fun (_ : List Msg) (_ : Option Nat) =>
          [Candidate.mk [Msg.mk "assistant" "ok"]])
            (buildConversation "Официальный" (pyStrip " hi ")) none) :=
  (conversation_shape "Официальный" (pyStrip " hi ")).2.1 " hi "
    (PipeHandle.mk true (fun _ _ => [Candidate.mk [Msg.mk "assistant" "ok"]])) none none
    rfl (by decide) rfl

/-- C10: in batch mode the length limit is applied to the stripped line, and
skipping precedes the abort check: a non-string entry is skipped (it has no
length at all), a string stripping to empty is skipped even when its raw
length exceeds the limit, a string whose stripped length fits the limit
survives even when its raw length exceeds the limit, only a string non-empty
after stripping can trigger the batch-aborting failure, and with `len_limit =
none` no length check happens — the batch never aborts. -/
theorem batch_limit_on_trimmed (styleStr : String) (l : Nat) :
    (∀ (v : PyObj) (rest : List PyObj), isStrObj v = false →
      buildBatch styleStr (some l) (v :: rest) = buildBatch styleStr (some l) rest)
    ∧ (∀ (s : String) (rest : List PyObj), pyStrip s = "" →
      buildBatch styleStr (some l) (PyObj.str s :: rest)
        = buildBatch styleStr (some l) rest)
    ∧ (∀ (s : String) (rest : List PyObj), pyStrip s ≠ "" → (pyStrip s).length ≤ l →
      buildBatch styleStr (some l) (PyObj.str s :: rest)
        = Except.map (fun tl => buildConversation styleStr (pyStrip s) :: tl)
            (buildBatch styleStr (some l) rest))
    ∧ (∀ (s : String) (rest : List PyObj), pyStrip s ≠ "" → l < (pyStrip s).length →
      buildBatch styleStr (some l) (PyObj.str s :: rest)
        = Except.error InfError.lengthExceeded)
    ∧ (∀ entries : List PyObj, ∃ convs,
        buildBatch styleStr none entries = Except.ok convs) := by
  refine ⟨?_, ?_, ?_, ?_, ?_⟩
  · intro v rest hv
    cases v with
    | str s => simp [isStrObj] at hv
    | list ls => simp [buildBatch]
    | other => simp [buildBatch]
  · intro s rest ht
    simp [buildBatch, ht]
  · intro s rest ht hle
    have hex : lenExceeds (some l) (pyStrip s) = false := by
      simp [lenExceeds, Nat.not_lt.mpr hle]
    cases hrest : buildBatch styleStr (some l) rest with
    | error e => simp [buildBatch, ht, hex, hrest, Except.map]
    | ok tl => simp [buildBatch, ht, hex, hrest, Except.map]
  · intro s rest ht hl
    have hex : lenExceeds (some l) (pyStrip s) = true := by
      simp [lenExceeds, hl]
    simp [buildBatch, ht, hex]
  · intro entries
    exact ⟨(validTexts none entries).map (buildConversation styleStr),
      buildBatch_eq_validTexts styleStr none entries (fun s _ => rfl)⟩

/-- Closed instance of C10: under limit 2, a non-string entry and a
whitespace-only string of raw length 6 are skipped, the string `"  ab  "` of
raw length 6 but stripped length 2 survives, `"abc"` of stripped length 3
aborts, and with no limit a 6-character line is accepted. -/
theorem batch_limit_on_trimmed_witness :
    buildBatch "st" (some 2) [PyObj.other] = buildBatch "st" (some 2) []
    ∧ buildBatch "st" (some 2) [PyObj.str "      "] = buildBatch "st" (some 2) []
    ∧ buildBatch "st" (some 2) [PyObj.str "  ab  "]
        = Except.map (fun tl => buildConversation "st" (pyStrip "  ab  ") :: tl)
            (buildBatch "st" (some 2) [])
    ∧ buildBatch "st" (some 2) [PyObj.str "abc"] = Except.error InfError.lengthExceeded
    ∧ ∃ convs, buildBatch "st" none [PyObj.str "abcdef"] = Except.ok convs :=
  ⟨(batch_limit_on_trimmed "st" 2).1 PyObj.other [] rfl,
   (batch_limit_on_trimmed "st" 2).2.1 "      " [] (by decide),
   (batch_limit_on_trimmed "st" 2).2.2.1 "  ab  " [] (by decide) (by decide),
   (batch_limit_on_trimmed "st" 2).2.2.2.1 "abc" [] (by decide) (by decide),
   (batch_limit_on_trimmed "st" 2).2.2.2.2 [PyObj.str "abcdef"]⟩
